import Mathlib

/-!
Verification of the store/reducer core and the persistence gateway of the
student-registry application (src/main.py), as a shallow embedding.

The Python program has two pure, verifiable cores:

* a Redux-like `Store` with a pure reducer over `AppState`
  (src/main.py lines 16-132), and
* a `DatabaseService` performing single-table CRUD over a sqlite table
  `students(id INTEGER PRIMARY KEY, pib TEXT NOT NULL, address TEXT,
  faculty TEXT, email TEXT)` (src/main.py lines 139-202).

Modelling decisions, each tied to the source:

* The `Student` dataclass (lines 16-23) declares `id: int` and four string
  fields, so `Student` here has an `Int` id and `String` fields.
* A sqlite row is modelled by `Row`, whose four text columns are nullable
  (`Option String`) exactly as in the schema of `_init_database`
  (lines 150-158); only `pib` carries a NOT NULL constraint, which the
  embedded `insertRow` enforces.  Python does not enforce dataclass
  annotations at runtime, so a raw row with a null `pib` can reach the
  INSERT; `create_row` models `create_student` applied to such a raw value.
* `AppState.students` is a Python dict keyed by id; it is modelled as the
  function `Int → Option Student`, with `dictSet` for `d[k] = v` and
  `dictPop` for `d.pop(k, None)` (the reducer always copies first, so the
  pure update is faithful).
* `Action.type` is compared by `==` against the six `ActionType` members in
  the reducer chain (lines 75-127); any other value falls through to
  `return state`.  The `Action` inductive therefore has one constructor per
  recognized kind, each carrying the payload shape that kind is dispatched
  with in the program, plus `unknown` standing for every action whose kind
  is not one of the six.
* `Store.dispatch` (lines 63-66) replaces `_state` by the reducer result
  and then notifies listeners; listeners do not touch the state, so the
  state transition of a dispatch is `dispatch st a = reducer st a`, and
  `getState()` afterwards returns exactly that new state.
-/

namespace StudentRegistry

/-- The `Student` dataclass (src/main.py lines 16-23). -/
structure Student where
  id : Int
  pib : String
  address : String
  faculty : String
  email : String
deriving DecidableEq

/-- The `AppState` dataclass (src/main.py lines 26-31): the dict
`students` is modelled as a function from ids to optional students. -/
structure AppState where
  current_student : Option Student
  students : Int → Option Student
  error : Option String

/-- `new_students[student.id] = student` after `state.students.copy()`
(src/main.py lines 77-78). -/
def dictSet (d : Int → Option Student) (k : Int) (v : Student) :
    Int → Option Student :=
  fun k2 => if k2 = k then some v else d k2

/-- `new_students.pop(student_id, None)` after `state.students.copy()`
(src/main.py lines 97-98). -/
def dictPop (d : Int → Option Student) (k : Int) : Int → Option Student :=
  fun k2 => if k2 = k then none else d k2

/-- Actions dispatched to the store (src/main.py lines 34-48).  One
constructor per `ActionType` member, carrying the payload the program
dispatches with that kind; `unknown` stands for any action whose kind is
none of the six enum members, which the reducer chain lets fall through to
`return state` (line 127). -/
inductive Action where
  | addStudent (s : Student)
  | updateStudent (s : Student)
  | deleteStudent (i : Int)
  | loadStudent (s : Student)
  | setError (msg : Option String)
  | clearError
  | unknown
deriving DecidableEq

/-- `Store._reducer` (src/main.py lines 73-127), branch by branch. -/
def reducer (state : AppState) (a : Action) : AppState :=
  match a with
  | .addStudent s =>
      { current_student := some s
        students := dictSet state.students s.id s
        error := none }
  | .updateStudent s =>
      { current_student := some s
        students := dictSet state.students s.id s
        error := none }
  | .deleteStudent i =>
      { current_student := none
        students := dictPop state.students i
        error := none }
  | .loadStudent s =>
      { current_student := some s
        students := state.students
        error := none }
  | .setError msg =>
      { current_student := state.current_student
        students := state.students
        error := msg }
  | .clearError =>
      { current_student := state.current_student
        students := state.students
        error := none }
  | .unknown => state

/-- `Store.dispatch` (src/main.py lines 63-66): the state after a dispatch
is the reducer applied to the previous state; `_notify_listeners` does not
change `_state`, and the `state` property returns it unchanged. -/
def dispatch (st : AppState) (a : Action) : AppState :=
  reducer st a

/-- One row of the sqlite `students` table as created by `_init_database`
(src/main.py lines 150-158): `id INTEGER PRIMARY KEY`, `pib TEXT NOT NULL`,
and three nullable TEXT columns. -/
structure Row where
  id : Int
  pib : Option String
  address : Option String
  faculty : Option String
  email : Option String
deriving DecidableEq

/-- `SELECT * FROM students WHERE id = ?` followed by `fetchone()`
(src/main.py lines 179-180): the first row whose primary key matches. -/
def rowWithId (t : List Row) (i : Int) : Option Row :=
  t.find? (fun r => r.id == i)

/-- sqlite INSERT semantics for the `students` table: `IntegrityError`
(modelled as `Except.error ()`)  when the primary key `id` already has a
row or when the NOT NULL column `pib` receives a null; otherwise the row
is appended. -/
def insertRow (t : List Row) (r : Row) : Except Unit (List Row) :=
  if (rowWithId t r.id).isSome then .error ()
  else if r.pib = none then .error ()
  else .ok (t ++ [r])

/-- `DatabaseService.create_student` (src/main.py lines 161-173) at the
row level: the INSERT runs inside `try`, every `sqlite3.IntegrityError` is
caught and turned into `False` with the table left as it was, and a
successful insert returns `True`. -/
def create_row (t : List Row) (r : Row) : Bool × List Row :=
  match insertRow t r with
  | .ok t2 => (true, t2)
  | .error _ => (false, t)

/-- The tuple `(student.id, student.pib, student.address, student.faculty,
student.email)` bound by `cursor.execute` (src/main.py line 168): a typed
`Student` yields a row with all text columns non-null. -/
def toRow (s : Student) : Row :=
  { id := s.id
    pib := some s.pib
    address := some s.address
    faculty := some s.faculty
    email := some s.email }

/-- `DatabaseService.create_student` (src/main.py lines 161-173) applied
to a `Student` dataclass value. -/
def create_student (t : List Row) (s : Student) : Bool × List Row :=
  create_row t (toRow s)

/-- `DatabaseService.get_student` (src/main.py lines 175-183).  `fetchone`
yields the matching row or nothing; `Student(*row)` repackages the five
column values of the row positionally, so the returned record carries
exactly the fields of that row. -/
def get_student (t : List Row) (i : Int) : Option Row :=
  rowWithId t i

/-- `DatabaseService.update_student` (src/main.py lines 185-194):
`UPDATE students SET pib = ?, address = ?, faculty = ?, email = ? WHERE
id = ?` rewrites the four text columns of every matching row, leaves `id`
alone, and `cursor.rowcount > 0` reports whether any row matched. -/
def update_student (t : List Row) (s : Student) : Bool × List Row :=
  (t.any (fun r => r.id == s.id),
   t.map (fun r =>
     if r.id == s.id then
       { id := r.id
         pib := some s.pib
         address := some s.address
         faculty := some s.faculty
         email := some s.email }
     else r))

/-- `DatabaseService.delete_student` (src/main.py lines 196-202):
`DELETE FROM students WHERE id = ?`; `cursor.rowcount > 0` reports
whether a row was removed. -/
def delete_student (t : List Row) (i : Int) : Bool × List Row :=
  (t.any (fun r => r.id == i),
   t.filter (fun r => !(r.id == i)))

/-- Sample student used by concrete witnesses, taken from the concrete
scenario of the specification. -/
def sIvan : Student := ⟨1, ("Ivan Petrenko"), ("Kyiv"), ("CS"), ("ip@x.com")⟩

/-- Sample raw row whose `pib` is null: constructible at runtime because
Python does not enforce the dataclass annotations, and rejected by the
NOT NULL constraint of the `students` table. -/
def rNullPib : Row := ⟨1, none, (some ("Kyiv")), (some ("CS")), none⟩

/-- Sample application state used by concrete witnesses: one cached
student under key 2, no current student, no error. -/
def st1 : AppState := ⟨none, (fun k => if k = 2 then some sIvan else none), none⟩

/-- `cursor.rowcount > 0` agreement: the existence test used by UPDATE and
DELETE matches the primary-key lookup used by SELECT. -/
lemma any_id_eq_isSome (t : List Row) (i : Int) :
    (t.any fun r => r.id == i) = (rowWithId t i).isSome := by
  rw [Bool.eq_iff_iff, List.any_eq_true, rowWithId, List.find?_isSome]

/-- The row bound from a typed `Student` keeps its id. -/
lemma toRow_id (s : Student) : (toRow s).id = s.id := rfl

/-- The row bound from a typed `Student` has a non-null `pib` column. -/
lemma toRow_pib (s : Student) : (toRow s).pib = some s.pib := rfl

/-- After inserting a fresh row, looking its id up finds exactly it. -/
lemma rowWithId_append_self (t : List Row) (s : Student)
    (h : rowWithId t s.id = none) :
    rowWithId (t ++ [toRow s]) s.id = some (toRow s) := by
  unfold rowWithId at h ⊢
  rw [List.find?_append, h]
  simp [List.find?_cons, toRow_id]

/-- `create_student` on a fresh id: INSERT succeeds and appends the row. -/
lemma create_student_fresh (t : List Row) (s : Student)
    (h : rowWithId t s.id = none) :
    create_student t s = (true, t ++ [toRow s]) := by
  simp [create_student, create_row, insertRow, toRow_id, toRow_pib, h]

/-- `create_student` on an occupied id: the caught `IntegrityError` yields
`False` and the table is untouched. -/
lemma create_student_dup (t : List Row) (s : Student)
    (h : rowWithId t s.id ≠ none) :
    create_student t s = (false, t) := by
  rw [Option.ne_none_iff_isSome] at h
  simp [create_student, create_row, insertRow, toRow_id, h]

/-- Claim C1: dispatching AddStudent(s) yields the state whose
current student is s, whose students mapping is the previous mapping with
key s.id bound to s, and whose error is cleared; hence the state read
back right after the dispatch has current student s and maps s.id to s. -/
theorem dispatch_addStudent_spec (st : AppState) (s : Student) :
    dispatch st (.addStudent s) =
      { current_student := some s
        students := dictSet st.students s.id s
        error := none } ∧
    (dispatch st (.addStudent s)).current_student = some s ∧
    (dispatch st (.addStudent s)).students s.id = some s := by
  refine ⟨rfl, rfl, ?_⟩
  simp [dispatch, reducer, dictSet]

/-- Claim C2: dispatching DeleteStudent(id) clears the current student and
the error and removes key id from the students mapping; when id is absent
the mapping is unchanged while current student and error are still
cleared. -/
theorem dispatch_deleteStudent_spec (st : AppState) (i : Int) :
    dispatch st (.deleteStudent i) =
      { current_student := none
        students := dictPop st.students i
        error := none } ∧
    (st.students i = none →
      (dispatch st (.deleteStudent i)).students = st.students) := by
  refine ⟨rfl, fun h => ?_⟩
  funext k
  by_cases hk : k = i
  · subst hk; simp [dispatch, reducer, dictPop, h]
  · simp [dispatch, reducer, dictPop, hk]

/-- Witness for claim C2 at a concrete state: id 5 is absent from the
mapping of `st1`, and dispatching DeleteStudent(5) leaves the mapping
unchanged while clearing the current student. -/
theorem dispatch_deleteStudent_spec_witness :
    (dispatch st1 (.deleteStudent 5)).students = st1.students ∧
    (dispatch st1 (.deleteStudent 5)).current_student = none :=
  ⟨(dispatch_deleteStudent_spec st1 5).2 (by decide),
   congrArg AppState.current_student (dispatch_deleteStudent_spec st1 5).1⟩

/-- Claim C3: dispatch never fails.  In the embedding the reducer is a
total function by construction, mirroring the closed if and elif chain of
the source, so every dispatch equals one total reducer application; an
action whose kind is none of the six recognized members falls through to
the final `return state` and leaves the state unchanged. -/
theorem dispatch_total (st : AppState) (a : Action) :
    dispatch st a = reducer st a ∧
    (a = Action.unknown → dispatch st a = st) := by
  refine ⟨rfl, fun h => ?_⟩
  subst h; rfl

/-- Witness for claim C3 at a concrete state: dispatching an action of an
unrecognized kind on `st1` returns `st1` itself. -/
theorem dispatch_total_witness : dispatch st1 Action.unknown = st1 :=
  (dispatch_total st1 Action.unknown).2 rfl

/-- Claim C4: SetError(msg) keeps students and current student and sets
the error to msg; ClearError keeps students and current student and
clears the error. -/
theorem dispatch_error_frame (st : AppState) (msg : Option String) :
    dispatch st (.setError msg) =
      { current_student := st.current_student
        students := st.students
        error := msg } ∧
    dispatch st .clearError =
      { current_student := st.current_student
        students := st.students
        error := none } :=
  ⟨rfl, rfl⟩

/-- Claim C5: `create_student` returns true exactly when no row with the
given id pre-exists; on an occupied id it returns false without throwing
(the embedding returns a plain pair because the source catches every
`IntegrityError`). -/
theorem create_student_true_iff_fresh (t : List Row) (s : Student) :
    (create_student t s).1 = true ↔ rowWithId t s.id = none := by
  cases h : rowWithId t s.id with
  | some r =>
    rw [create_student_dup t s (by rw [h]; exact fun hc => Option.noConfusion hc)]
    simp
  | none =>
    rw [create_student_fresh t s h]
    simp

/-- Claim C6: calling `create_student` twice with the same student, the
second call returns false, leaves the table exactly as the first call
left it, and the stored row for that id is the one the first call put
there. -/
theorem create_student_twice (t : List Row) (s : Student) :
    (create_student (create_student t s).2 s).1 = false ∧
    (create_student (create_student t s).2 s).2 = (create_student t s).2 ∧
    get_student (create_student (create_student t s).2 s).2 s.id =
      get_student (create_student t s).2 s.id := by
  cases h : rowWithId t s.id with
  | some r =>
    have hne : rowWithId t s.id ≠ none := by
      rw [h]; exact fun hc => Option.noConfusion hc
    rw [create_student_dup t s hne]
    simp [create_student_dup t s hne]
  | none =>
    rw [create_student_fresh t s h]
    have h2 := rowWithId_append_self t s h
    have hne : rowWithId (t ++ [toRow s]) s.id ≠ none := by
      rw [h2]; exact fun hc => Option.noConfusion hc
    simp [create_student_dup (t ++ [toRow s]) s hne]

/-- Claim C7: for a valid student (non-empty pib) whose id is fresh,
`create_student` returns true and `get_student` then returns a record
whose five fields are exactly those of the created student. -/
theorem create_then_get_roundtrip (t : List Row) (s : Student)
    (_hv : s.pib ≠ "") (hfresh : rowWithId t s.id = none) :
    (create_student t s).1 = true ∧
    get_student (create_student t s).2 s.id = some (toRow s) := by
  rw [create_student_fresh t s hfresh]
  exact ⟨rfl, by simpa [get_student] using rowWithId_append_self t s hfresh⟩

/-- Witness for claim C7 on the empty table with the sample student from
the specification scenario. -/
theorem create_then_get_roundtrip_witness :
    (create_student [] sIvan).1 = true ∧
    get_student (create_student [] sIvan).2 sIvan.id = some (toRow sIvan) :=
  create_then_get_roundtrip [] sIvan (by decide) (by decide)

/-- Claim C8: on an id absent from the table, `get_student` returns
absent, `update_student` returns false, and `delete_student` returns
false; all three are total functions, so none escalates an error. -/
theorem absent_id_operations (t : List Row) (s : Student)
    (h : rowWithId t s.id = none) :
    get_student t s.id = none ∧
    (update_student t s).1 = false ∧
    (delete_student t s.id).1 = false := by
  refine ⟨h, ?_, ?_⟩
  · show (t.any fun r => r.id == s.id) = false
    rw [any_id_eq_isSome t s.id, h]
    rfl
  · show (t.any fun r => r.id == s.id) = false
    rw [any_id_eq_isSome t s.id, h]
    rfl

/-- Witness for claim C8 on the empty table. -/
theorem absent_id_operations_witness :
    get_student [] sIvan.id = none ∧
    (update_student [] sIvan).1 = false ∧
    (delete_student [] sIvan.id).1 = false :=
  absent_id_operations [] sIvan rfl

/-- Claim C9: `update_student` reports true exactly when a row with the
given id exists, rewrites the four text columns of the matching row to
the given values, and never alters the id column of any row. -/
theorem update_student_spec (t : List Row) (s : Student) :
    ((update_student t s).1 = true ↔ (rowWithId t s.id).isSome = true) ∧
    (update_student t s).2 = t.map (fun r =>
      if r.id == s.id then
        { id := r.id
          pib := some s.pib
          address := some s.address
          faculty := some s.faculty
          email := some s.email }
      else r) ∧
    (update_student t s).2.map Row.id = t.map Row.id := by
  refine ⟨?_, rfl, ?_⟩
  · show (t.any fun r => r.id == s.id) = true ↔ _
    rw [any_id_eq_isSome t s.id]
  · show (t.map _).map Row.id = t.map Row.id
    rw [List.map_map]
    apply List.map_congr_left
    intro r _
    by_cases hr : r.id = s.id
    · simp [hr]
    · simp [hr]

/-- Claim C10: whatever integrity violation the INSERT raises, duplicate
primary key or NOT NULL alike, `create_row` catches it and returns false
with the table untouched, so a false result does not uniquely indicate a
duplicate key. -/
theorem create_row_integrity_false (t : List Row) (r : Row)
    (h : insertRow t r = Except.error ()) :
    (create_row t r).1 = false ∧ (create_row t r).2 = t := by
  simp [create_row, h]

/-- Witness for claim C10: the raw row with a null `pib` and a fresh id
is rejected with a false result even though no row with its id
pre-exists. -/
theorem create_row_integrity_false_witness :
    rowWithId [] rNullPib.id = none ∧
    (create_row [] rNullPib).1 = false ∧ (create_row [] rNullPib).2 = [] :=
  ⟨rfl, create_row_integrity_false [] rNullPib rfl⟩

end StudentRegistry
